import Mathlib

/-!
Shallow embedding of `src/script.js` (Yushazs-website activity tracker).

The script keeps all session state in closure-level mutable variables and
mutates them from event handlers.  We model that state as the structure
`AppState` and each handler / callback as a pure function
`AppState → ... → AppState`.  Times (`Date.now()`) are integer
milliseconds, modelled as `ℤ`.  Geographic coordinates and distances are
modelled over `ℝ` (the JS numbers are IEEE doubles; the real-number model
captures the exact mathematical formula the code implements).

DOM-only side effects that no claim depends on (the Leaflet map, the
polyline, the start-time label, the distance label's `toFixed` text) are
not modelled; the duration label text, the pause-button label and the
three buttons' disabled flags are modelled because claims refer to them.
`alert(...)` in `handleStart` is modelled as a `Bool` result
(`true` = the "Activity already started" alert fired).
-/

open Real

/-- `Math.atan2 y x` of JavaScript, on exact reals (signed zeros collapse
to `0`, so `atan2 0 0 = 0`). -/
noncomputable def atan2 (y x : ℝ) : ℝ :=
  if 0 < x then Real.arctan (y / x)
  else if x < 0 then
    (if 0 ≤ y then Real.arctan (y / x) + Real.pi else Real.arctan (y / x) - Real.pi)
  else
    (if 0 < y then Real.pi / 2 else if y < 0 then -(Real.pi / 2) else 0)

/-- `calculateDistance(lat1, lon1, lat2, lon2)` from `script.js` lines
115–125: haversine distance in kilometres with Earth radius `R = 6371`. -/
noncomputable def calculateDistance (lat1 lon1 lat2 lon2 : ℝ) : ℝ :=
  let R : ℝ := 6371
  let dLat := (lat2 - lat1) * Real.pi / 180
  let dLon := (lon2 - lon1) * Real.pi / 180
  let a :=
    Real.sin (dLat / 2) * Real.sin (dLat / 2) +
    Real.cos (lat1 * Real.pi / 180) * Real.cos (lat2 * Real.pi / 180) *
    Real.sin (dLon / 2) * Real.sin (dLon / 2)
  let c := 2 * atan2 (Real.sqrt a) (Real.sqrt (1 - a))
  R * c

/-- The closure-level mutable state of `script.js` (lines 13–22), plus the
DOM state the handlers read or write and that the spec's claims mention. -/
structure AppState where
  /-- `watchId`: the geolocation watch handle, `null` when not watching.
  The concrete handle value is an opaque platform token; `startTracking`
  models it as `some 1`. -/
  watchId : Option Nat
  /-- `startTime`: `null` until `handleStart` stores `Date.now()`. -/
  startTime : Option ℤ
  /-- `timerInterval`: whether a repeating interval is registered. -/
  timerInterval : Bool
  pausedTime : ℤ
  totalPausedDuration : ℤ
  distance : ℝ
  coordinates : List (ℝ × ℝ)
  isPaused : Bool
  /-- `durationElement.textContent`. -/
  durationText : String
  /-- `pauseBtn.textContent`. -/
  pauseBtnText : String
  startBtnDisabled : Bool
  pauseBtnDisabled : Bool
  resetBtnDisabled : Bool

/-- `startTracking()` (lines 84–94): `watchPosition` succeeds and returns a
non-null handle. -/
def startTracking (s : AppState) : AppState :=
  { s with watchId := some 1 }

/-- `stopTracking()` (lines 99–104). -/
def stopTracking (s : AppState) : AppState :=
  if s.watchId ≠ none then { s with watchId := none } else s

/-- `String.padStart(2, '0')` of JavaScript for the non-empty strings
`toString` produces. -/
def pad2 (s : String) : String :=
  if s.length < 2 then "0" ++ s else s

/-- The `HH:MM:SS` text the interval callback writes (lines 144–148).
`Math.floor`-based field extraction; agrees with the JS arithmetic for
every non-negative elapsed time (the only case the handlers produce). -/
def formatDuration (elapsedMilliseconds : ℤ) : String :=
  let seconds := elapsedMilliseconds / 1000 % 60
  let minutes := elapsedMilliseconds / (1000 * 60) % 60
  let hours := elapsedMilliseconds / (1000 * 60 * 60)
  pad2 (toString hours) ++ ":" ++ pad2 (toString minutes) ++ ":" ++ pad2 (toString seconds)

/-- `startTimer()` (lines 131–151): clear any existing interval, apply the
resume adjustment when `isPaused && pausedTime > 0`, register a new
interval.  `now` is the `Date.now()` of line 136. -/
def startTimer (s : AppState) (now : ℤ) : AppState :=
  let s1 := { s with timerInterval := false }
  let s2 :=
    if s1.isPaused = true ∧ s1.pausedTime > 0 then
      { s1 with totalPausedDuration := s1.totalPausedDuration + (now - s1.pausedTime),
                pausedTime := 0 }
    else s1
  { s2 with timerInterval := true }

/-- `stopTimer()` (lines 156–159). -/
def stopTimer (s : AppState) : AppState :=
  { s with timerInterval := false }

/-- One firing of the interval callback registered by `startTimer`
(lines 140–150) at instant `now`.  The JS guard `startTime && !isPaused`
is truthiness: it also fails when `startTime` is the number `0`. -/
def timerTick (s : AppState) (now : ℤ) : AppState :=
  if s.timerInterval then
    match s.startTime with
    | none => s
    | some startTime =>
      if startTime ≠ 0 ∧ s.isPaused = false then
        { s with durationText := formatDuration (now - startTime - s.totalPausedDuration) }
      else s
  else s

/-- `onPositionUpdate(position)` (lines 42–70): append the new coordinate
unconditionally, and when more than one point exists add the distance from
the previous point.  Map/polyline rendering is external and not modelled. -/
noncomputable def onPositionUpdate (s : AppState) (latitude longitude : ℝ) : AppState :=
  let newCoord : ℝ × ℝ := (latitude, longitude)
  let coordinates := s.coordinates ++ [newCoord]
  let s1 := { s with coordinates := coordinates }
  if coordinates.length > 1 then
    let prevCoord := coordinates.getD (coordinates.length - 2) (0, 0)
    { s1 with distance :=
        s1.distance + calculateDistance prevCoord.1 prevCoord.2 newCoord.1 newCoord.2 }
  else s1

/-- `handleStart()` (lines 165–198).  The returned `Bool` is `true` exactly
when the "Activity already started. Pause or Reset first." alert fired (the
guard `watchId !== null`), in which case the state is untouched. -/
def handleStart (s : AppState) (now : ℤ) : AppState × Bool :=
  if s.watchId ≠ none then
    (s, true)
  else
    let s1 := { s with startTime := some now, totalPausedDuration := 0, pausedTime := 0,
                       isPaused := false, durationText := "00:00:00",
                       coordinates := [], distance := 0 }
    let s2 := startTracking s1
    let s3 := startTimer s2 now
    ({ s3 with startBtnDisabled := true, pauseBtnDisabled := false,
               pauseBtnText := "Pause", resetBtnDisabled := false }, false)

/-- `handlePause()` (lines 203–217): an unguarded pause/resume toggle. -/
def handlePause (s : AppState) (now : ℤ) : AppState :=
  let s1 := { s with isPaused := !s.isPaused }
  if s1.isPaused then
    let s2 := stopTracking s1
    { s2 with pausedTime := now, pauseBtnText := "Resume" }
  else
    let s2 := startTracking s1
    let s3 := startTimer s2 now
    { s3 with pauseBtnText := "Pause" }

/-- `handleReset()` (lines 222–256). -/
def handleReset (s : AppState) : AppState :=
  let s1 := stopTracking s
  let s2 := stopTimer s1
  { s2 with startTime := none, pausedTime := 0, totalPausedDuration := 0,
            distance := 0, coordinates := [], isPaused := false,
            durationText := "-", startBtnDisabled := false,
            pauseBtnDisabled := true, pauseBtnText := "Pause",
            resetBtnDisabled := true }

/-- The state right after the script's setup runs (lines 13–22 and
262–273): all session variables at their declared initial values, pause
and reset buttons disabled.  The initial label texts come from the page
markup, which is outside the modelled source; they never matter to a
claim. -/
def initialState : AppState where
  watchId := none
  startTime := none
  timerInterval := false
  pausedTime := 0
  totalPausedDuration := 0
  distance := 0
  coordinates := []
  isPaused := false
  durationText := "-"
  pauseBtnText := "Pause"
  startBtnDisabled := false
  pauseBtnDisabled := true
  resetBtnDisabled := true

/-- Sum of `calculateDistance` over consecutive pairs of a path. -/
noncomputable def pairwiseSum : List (ℝ × ℝ) → ℝ
  | p :: q :: rest => calculateDistance p.1 p.2 q.1 q.2 + pairwiseSum (q :: rest)
  | _ => 0

/-- Ingesting a list of positions in arrival order. -/
noncomputable def run (s : AppState) (ps : List (ℝ × ℝ)) : AppState :=
  ps.foldl (fun t c => onPositionUpdate t c.1 c.2) s

/-! ## Scenario states shared by several claims -/

/-- A session started at `t = 1000` ms: Tracking, watch active, no points. -/
def startedState : AppState := (handleStart initialState 1000).1

/-- The started session paused at `t = 11000` ms. -/
def pausedState : AppState := handlePause startedState 11000

/-- The started session after one position `(0, 0)` arrived. -/
noncomputable def trackedOnceState : AppState := onPositionUpdate startedState 0 0

/-- The one-point session paused at `t = 11000` ms. -/
noncomputable def pausedOnceState : AppState := handlePause trackedOnceState 11000

/-! ## Haversine helper lemmas -/

lemma arctan_nonneg_of_nonneg {x : ℝ} (h : 0 ≤ x) : 0 ≤ Real.arctan x := by
  have := Real.arctan_strictMono.monotone h
  rwa [Real.arctan_zero] at this

lemma atan2_nonneg {y x : ℝ} (hy : 0 ≤ y) (hx : 0 ≤ x) : 0 ≤ atan2 y x := by
  rcases hx.lt_or_eq with hxpos | hxzero
  · rw [atan2, if_pos hxpos]
    exact arctan_nonneg_of_nonneg (div_nonneg hy hxpos.le)
  · rw [atan2, if_neg (by linarith), if_neg (by linarith)]
    split_ifs with hgt hlt
    · linarith [Real.pi_pos]
    · linarith
    · exact le_rfl

lemma calculateDistance_nonneg (lat1 lon1 lat2 lon2 : ℝ) :
    0 ≤ calculateDistance lat1 lon1 lat2 lon2 := by
  have key : ∀ a : ℝ, (0 : ℝ) ≤ 6371 * (2 * atan2 (Real.sqrt a) (Real.sqrt (1 - a))) := by
    intro a
    have h := atan2_nonneg (Real.sqrt_nonneg a) (Real.sqrt_nonneg (1 - a))
    have h2 : (0 : ℝ) ≤ 2 * atan2 (Real.sqrt a) (Real.sqrt (1 - a)) := by linarith
    nlinarith
  exact key _

lemma calculateDistance_self (lat lon : ℝ) : calculateDistance lat lon lat lon = 0 := by
  unfold calculateDistance
  have h0 : (lat - lat) * Real.pi / 180 = 0 := by ring
  have h1 : (lon - lon) * Real.pi / 180 = 0 := by ring
  rw [h0, h1]
  norm_num [Real.sqrt_one, atan2, Real.arctan_zero]

lemma calculateDistance_comm (lat1 lon1 lat2 lon2 : ℝ) :
    calculateDistance lat1 lon1 lat2 lon2 = calculateDistance lat2 lon2 lat1 lon1 := by
  have hA :
      Real.sin ((lat1 - lat2) * Real.pi / 180 / 2) * Real.sin ((lat1 - lat2) * Real.pi / 180 / 2) +
        Real.cos (lat2 * Real.pi / 180) * Real.cos (lat1 * Real.pi / 180) *
        Real.sin ((lon1 - lon2) * Real.pi / 180 / 2) *
        Real.sin ((lon1 - lon2) * Real.pi / 180 / 2) =
      Real.sin ((lat2 - lat1) * Real.pi / 180 / 2) * Real.sin ((lat2 - lat1) * Real.pi / 180 / 2) +
        Real.cos (lat1 * Real.pi / 180) * Real.cos (lat2 * Real.pi / 180) *
        Real.sin ((lon2 - lon1) * Real.pi / 180 / 2) *
        Real.sin ((lon2 - lon1) * Real.pi / 180 / 2) := by
    have e1 : (lat1 - lat2) * Real.pi / 180 / 2 = -((lat2 - lat1) * Real.pi / 180 / 2) := by ring
    have e2 : (lon1 - lon2) * Real.pi / 180 / 2 = -((lon2 - lon1) * Real.pi / 180 / 2) := by ring
    rw [e1, e2, Real.sin_neg, Real.sin_neg]
    ring
  unfold calculateDistance
  dsimp only
  rw [hA]

/-! ## Distance accumulation lemmas -/

lemma pairwiseSum_nil : pairwiseSum [] = 0 := rfl

lemma pairwiseSum_single (p : ℝ × ℝ) : pairwiseSum [p] = 0 := rfl

lemma pairwiseSum_nonneg : ∀ l : List (ℝ × ℝ), 0 ≤ pairwiseSum l := by
  intro l
  induction l with
  | nil => simp [pairwiseSum]
  | cons p t ih =>
    cases t with
    | nil => simp [pairwiseSum]
    | cons q r =>
      have h := calculateDistance_nonneg p.1 p.2 q.1 q.2
      simp only [pairwiseSum] at ih ⊢
      linarith

lemma pairwiseSum_short {l : List (ℝ × ℝ)} (h : l.length < 2) : pairwiseSum l = 0 := by
  match l with
  | [] => rfl
  | [p] => rfl
  | p :: q :: r =>
    simp only [List.length_cons] at h
    omega

lemma pairwiseSum_snoc (c d : ℝ × ℝ) :
    ∀ l : List (ℝ × ℝ), l ≠ [] →
      pairwiseSum (l ++ [c]) =
        pairwiseSum l +
          calculateDistance (l.getD (l.length - 1) d).1 (l.getD (l.length - 1) d).2 c.1 c.2 := by
  intro l
  induction l with
  | nil => intro h; exact absurd rfl h
  | cons p t ih =>
    intro _
    cases t with
    | nil => simp [pairwiseSum]
    | cons q r =>
      have h2 : q :: r ≠ [] := by simp
      have step := ih h2
      simp only [List.cons_append, pairwiseSum] at step ⊢
      simp only [List.append_eq] at step ⊢
      rw [step]
      have hidx : (p :: q :: r).length - 1 = ((q :: r).length - 1) + 1 := by
        simp
      rw [hidx, List.getD_cons_succ]
      ring

lemma onPositionUpdate_coordinates (s : AppState) (lat lon : ℝ) :
    (onPositionUpdate s lat lon).coordinates = s.coordinates ++ [(lat, lon)] := by
  unfold onPositionUpdate
  dsimp only
  split <;> rfl

lemma onPositionUpdate_invariant (s : AppState) (lat lon : ℝ)
    (h : s.distance = pairwiseSum s.coordinates) :
    (onPositionUpdate s lat lon).distance =
      pairwiseSum (onPositionUpdate s lat lon).coordinates := by
  rw [onPositionUpdate_coordinates]
  unfold onPositionUpdate
  dsimp only
  split
  · next hlen =>
    have hne : s.coordinates ≠ [] := by
      intro hnil
      rw [hnil] at hlen
      simp at hlen
    rw [pairwiseSum_snoc (lat, lon) (0, 0) s.coordinates hne, ← h]
    have hidx : (s.coordinates ++ [(lat, lon)]).length - 2 = s.coordinates.length - 1 := by
      simp
    have hlt : s.coordinates.length - 1 < s.coordinates.length :=
      Nat.sub_lt (List.length_pos.mpr hne) one_pos
    rw [hidx, List.getD_append _ _ _ _ hlt]
  · next hlen =>
    have hshort : (s.coordinates ++ [(lat, lon)]).length < 2 := by omega
    rw [pairwiseSum_short hshort, h,
      pairwiseSum_short (by simp at hshort ⊢; omega)]

lemma run_invariant (ps : List (ℝ × ℝ)) :
    ∀ s : AppState, s.distance = pairwiseSum s.coordinates →
      (run s ps).distance = pairwiseSum (run s ps).coordinates := by
  induction ps with
  | nil => intro s h; exact h
  | cons c rest ih =>
    intro s h
    have h1 := onPositionUpdate_invariant s c.1 c.2 h
    simpa [run, List.foldl_cons] using ih (onPositionUpdate s c.1 c.2) h1

/-! ## State-machine helper lemmas -/

lemma stopTracking_watchId (s : AppState) : (stopTracking s).watchId = none := by
  unfold stopTracking
  split
  · rfl
  · next h => push_neg at h; exact h

lemma handlePause_watchId_of_not_paused (s : AppState) (now : ℤ) (h : s.isPaused = false) :
    (handlePause s now).watchId = none := by
  unfold handlePause
  rw [h]
  simpa using stopTracking_watchId _

/-- The started session after one tick at `t = 4000` ms: duration label
shows `00:00:03`. -/
def tickedState : AppState := timerTick startedState 4000

/-- The ticked session paused at `t = 11000` ms. -/
def pausedAfterTickState : AppState := handlePause tickedState 11000

/-! ## Claims -/

/-- Claim C1 (code_bug evidence): after `start` at t=1000 ms, `pause` at
t=11000 ms and `resume` at t=16000 ms, the tick at t=21000 ms displays
`00:00:20`, not the `00:00:15` the claim (and the code's own comments at
lines 134 and 213 of `script.js`) require: `handlePause` flips `isPaused`
to `false` before calling `startTimer`, so the `isPaused && pausedTime > 0`
adjustment never runs — `totalPausedDuration` stays `0` and `pausedTime`
is never cleared. -/
theorem resume_loses_pause_credit :
    (timerTick (handlePause pausedState 16000) 21000).durationText = "00:00:20" ∧
    (timerTick (handlePause pausedState 16000) 21000).durationText ≠ "00:00:15" ∧
    (handlePause pausedState 16000).totalPausedDuration = 0 ∧
    (handlePause pausedState 16000).pausedTime = 11000 := by decide

/-- Claim C2: after every sequence of position ingestions from the fresh
state, `distance` equals the sum of `calculateDistance` over consecutive
elements of `coordinates`, is never negative, and is exactly `0` whenever
fewer than two coordinates exist. -/
theorem totalDistance_invariant (ps : List (ℝ × ℝ)) :
    (run initialState ps).distance = pairwiseSum (run initialState ps).coordinates ∧
    0 ≤ (run initialState ps).distance ∧
    ((run initialState ps).coordinates.length < 2 → (run initialState ps).distance = 0) := by
  have hinv := run_invariant ps initialState rfl
  refine ⟨hinv, ?_, ?_⟩
  · rw [hinv]
    exact pairwiseSum_nonneg _
  · intro hlen
    rw [hinv]
    exact pairwiseSum_short hlen

/-- Claim C2 witness: the empty ingestion sequence has fewer than two
coordinates and zero distance. -/
theorem totalDistance_invariant_witness :
    (run initialState []).coordinates.length < 2 ∧ (run initialState []).distance = 0 :=
  ⟨by simp [run, initialState], (totalDistance_invariant []).2.2 (by simp [run, initialState])⟩

/-- Claim C3 counterexample: in a Paused session holding one coordinate,
delivering `(0, 1)` to `onPositionUpdate` is not a no-op — the callback has
no state guard, so the coordinates sequence grows. -/
theorem ingest_while_paused_mutates :
    pausedOnceState.isPaused = true ∧
    (onPositionUpdate pausedOnceState 0 1).coordinates ≠ pausedOnceState.coordinates := by
  refine ⟨by decide, ?_⟩
  rw [onPositionUpdate_coordinates]
  intro h
  have := congrArg List.length h
  simp at this

/-- Claim C3 amended: suppression of positions while not Tracking is
implemented by clearing the geolocation watch (`handlePause` on a
non-paused session ends with `watchId = null`, so the platform stops
delivering callbacks); `onPositionUpdate` itself is unguarded and appends
every coordinate it is invoked with, whatever the session state. -/
theorem pause_suppresses_by_clearing_watch (s : AppState) (now : ℤ) (lat lon : ℝ)
    (h : s.isPaused = false) :
    (handlePause s now).watchId = none ∧
    (onPositionUpdate s lat lon).coordinates = s.coordinates ++ [(lat, lon)] :=
  ⟨handlePause_watchId_of_not_paused s now h, onPositionUpdate_coordinates s lat lon⟩

/-- Claim C3 amended witness, at the tracking one-point session. -/
theorem pause_suppresses_by_clearing_watch_witness :
    trackedOnceState.isPaused = false ∧
    ((handlePause trackedOnceState 11000).watchId = none ∧
      (onPositionUpdate trackedOnceState 5 6).coordinates =
        trackedOnceState.coordinates ++ [(5, 6)]) :=
  ⟨by decide, pause_suppresses_by_clearing_watch trackedOnceState 11000 5 6 (by decide)⟩

/-- Claim C4 counterexample: `pausedState` is Paused (so not Idle), yet
`handleStart` does not signal "already active" (the alert guard tests
`watchId !== null`, and pausing cleared the watch) and it restarts the
session, changing `startTime`. -/
theorem start_while_paused_not_rejected :
    pausedState.isPaused = true ∧
    (handleStart pausedState 16000).2 = false ∧
    (handleStart pausedState 16000).1.startTime ≠ pausedState.startTime := by decide

/-- Claim C4 amended: `handleStart` signals the already-active condition
and leaves the state untouched exactly when a geolocation watch is active
(`watchId ≠ null`), i.e. only while actively Tracking; issued while Paused
or Idle it does not signal and reinitializes the session. -/
theorem start_rejected_iff_watching (s : AppState) (now : ℤ) (h : s.watchId ≠ none) :
    handleStart s now = (s, true) := by
  unfold handleStart
  rw [if_pos h]

/-- Claim C4 amended witness, at the freshly started (Tracking) session. -/
theorem start_rejected_iff_watching_witness :
    startedState.watchId ≠ none ∧ handleStart startedState 99000 = (startedState, true) :=
  ⟨by decide, start_rejected_iff_watching startedState 99000 (by decide)⟩

/-- Claim C5 counterexample: `handlePause` on the freshly constructed
(Idle) session does not leave the state unchanged — it has no guard and no
error channel at all: it flips `isPaused` to `true` and records
`pausedTime`. -/
theorem pause_on_idle_changes_state :
    initialState.isPaused = false ∧
    (handlePause initialState 5000).isPaused = true ∧
    (handlePause initialState 5000).pausedTime = 5000 := by decide

/-- Claim C5 amended: `handlePause` performs no state check and returns no
condition; invoked on the fresh Idle session it enters the paused
configuration (`isPaused = true`, `pausedTime = now`, button label
`Resume`).  The script instead prevents this path in the UI by keeping the
pause button disabled while Idle. -/
theorem pause_unguarded_on_idle (now : ℤ) :
    (handlePause initialState now).isPaused = true ∧
    (handlePause initialState now).pausedTime = now ∧
    (handlePause initialState now).pauseBtnText = "Resume" ∧
    initialState.pauseBtnDisabled = true :=
  ⟨rfl, rfl, rfl, rfl⟩

/-- Claim C6 counterexample: pause at t=11000 ms after a last tick at
t=4000 ms; the frozen display is `00:00:03` (the last tick's value), not
the `pausedAt - startedAt - totalPausedDuration = 10000 ms = 00:00:10` the
claim states. -/
theorem paused_display_is_not_pausedAt_formula :
    (timerTick pausedAfterTickState 12000).durationText = "00:00:03" ∧
    formatDuration (pausedAfterTickState.pausedTime - pausedAfterTickState.startTime.getD 0 -
      pausedAfterTickState.totalPausedDuration) = "00:00:10" ∧
    (timerTick pausedAfterTickState 12000).durationText ≠
      formatDuration (pausedAfterTickState.pausedTime - pausedAfterTickState.startTime.getD 0 -
        pausedAfterTickState.totalPausedDuration) := by decide

/-- Claim C6 amended: while Paused, ticks are complete no-ops — the
reported duration never changes during a pause (no drift), remaining at
the value written by the last tick before the pause began (which may lag
`pausedAt - startedAt - totalPausedDuration` by up to one tick). -/
theorem tick_noop_while_paused (s : AppState) (now : ℤ) (h : s.isPaused = true) :
    timerTick s now = s := by
  unfold timerTick
  rw [h]
  split
  · split
    · rfl
    · next =>
      split
      · next hcond => simp at hcond
      · rfl
  · rfl

/-- Claim C6 amended witness, at the paused session after a tick. -/
theorem tick_noop_while_paused_witness :
    pausedAfterTickState.isPaused = true ∧
    timerTick pausedAfterTickState 99999 = pausedAfterTickState :=
  ⟨by decide, tick_noop_while_paused pausedAfterTickState 99999 (by decide)⟩

/-- Claim C7: from every session state, `handleReset` returns to Idle —
watch cleared, timer stopped, `startTime`/`pausedTime` cleared, both
accumulators zero, empty path, duration label back to its placeholder —
and a subsequent tick leaves everything untouched (elapsed is
undefined/zero). -/
theorem reset_returns_to_idle (s : AppState) (now : ℤ) :
    (handleReset s).startTime = none ∧
    (handleReset s).watchId = none ∧
    (handleReset s).isPaused = false ∧
    (handleReset s).timerInterval = false ∧
    (handleReset s).pausedTime = 0 ∧
    (handleReset s).totalPausedDuration = 0 ∧
    (handleReset s).distance = 0 ∧
    (handleReset s).coordinates = [] ∧
    (handleReset s).durationText = "-" ∧
    timerTick (handleReset s) now = handleReset s := by
  refine ⟨rfl, ?_, rfl, rfl, rfl, rfl, rfl, rfl, rfl, rfl⟩
  simp [handleReset, stopTimer, stopTracking_watchId]

/-- Claim C8: `calculateDistance` never returns a negative value, and
returns exactly `0` on two equal coordinates. -/
theorem calculateDistance_nonneg_and_zero_on_equal :
    (∀ lat1 lon1 lat2 lon2 : ℝ, 0 ≤ calculateDistance lat1 lon1 lat2 lon2) ∧
    (∀ lat lon : ℝ, calculateDistance lat lon lat lon = 0) :=
  ⟨calculateDistance_nonneg, calculateDistance_self⟩

/-- Claim C9 counterexample: latitude `200` is out of range, yet
`onPositionUpdate` appends it to the path (and there is no
`InvalidCoordinate` channel anywhere in the script), instead of rejecting
it and leaving the coordinates unchanged. -/
theorem out_of_range_coordinate_accepted :
    (90 : ℝ) < 200 ∧
    (onPositionUpdate trackedOnceState 200 0).coordinates ≠ trackedOnceState.coordinates ∧
    (onPositionUpdate trackedOnceState 200 0).coordinates =
      trackedOnceState.coordinates ++ [(200, 0)] := by
  refine ⟨by norm_num, ?_, onPositionUpdate_coordinates _ _ _⟩
  rw [onPositionUpdate_coordinates]
  intro h
  have := congrArg List.length h
  simp at this

/-- Claim C9 amended: `onPositionUpdate` performs no range validation —
every coordinate, in range or not, is appended to the path (and feeds the
distance sum); no `InvalidCoordinate` condition exists in the code. -/
theorem ingest_does_not_validate_range (s : AppState) (lat lon : ℝ)
    (h : 90 < lat ∨ lat < -90 ∨ 180 < lon ∨ lon < -180) :
    (onPositionUpdate s lat lon).coordinates = s.coordinates ++ [(lat, lon)] :=
  onPositionUpdate_coordinates s lat lon

/-- Claim C9 amended witness, at latitude `200`. -/
theorem ingest_does_not_validate_range_witness :
    ((90 : ℝ) < 200 ∨ (200 : ℝ) < -90 ∨ (180 : ℝ) < 0 ∨ (0 : ℝ) < -180) ∧
    (onPositionUpdate initialState 200 0).coordinates =
      initialState.coordinates ++ [(200, 0)] :=
  ⟨Or.inl (by norm_num),
    ingest_does_not_validate_range initialState 200 0 (Or.inl (by norm_num))⟩

/-- Claim C10: `calculateDistance` is symmetric in its two coordinates. -/
theorem distance_symmetric (lat1 lon1 lat2 lon2 : ℝ) :
    calculateDistance lat1 lon1 lat2 lon2 = calculateDistance lat2 lon2 lat1 lon1 :=
  calculateDistance_comm lat1 lon1 lat2 lon2
